import Mathlib

/-!
Verification of the `objectmapper` package (`src/object_mapper.go`): a reflective
object-to-object value mapper.  Go runtime values are embedded as the inductive
`Value`, Go runtime types (`reflect.Type`) as `Ty`, and struct type declarations
as an environment `TyEnv` mapping a struct type name to its declared field list
(this lets self-referential struct types such as `Person` with a `Child *Person`
field be represented, exactly as Go type descriptors do).

`reflect` operations that panic at run time (IsZero / Interface / FieldByName /
Set on a zero Value, `reflect.Value.Set` with a non-assignable type) are modelled
as the `panic` outcomes of the respective functions.  The mapper itself
(`mapValues`, `verifyParameters`, `MapWithBuilders`, `Map`) is translated
statement by statement from src/object_mapper.go.
-/

namespace ObjectMapper

/-- Go runtime types, as dispatched on by `reflect.Value.Kind` in `mapValues`.
Struct types are referenced by name and resolved through a `TyEnv`, mirroring
Go's named type descriptors (and allowing recursive struct types).
`tnamed` is a user-defined named type of string kind (e.g. `mapper.JSONStr`
from the repository's tests); `ttime` is the external `time.Time` type. -/
inductive Ty where
| tint : Ty
| tbool : Ty
| tstring : Ty
| tnamed : String → Ty
| ttime : Ty
| tptr : Ty → Ty
| tslice : Ty → Ty
| tstruct : String → Ty
deriving DecidableEq

/-- Declared fields of each named struct type: `reflect.Type.NumField/Field`. -/
def TyEnv := List (String × List (String × Ty))

/-- Go runtime values. `invalid` is reflect's zero `Value` (returned by
`FieldByName` for a missing field, or by `Indirect` of a nil pointer).
A nil pointer is `vptr elemTy none`; Go's nil slice and empty slice are both
represented as `vslice elemTy []` (no claim distinguishes them).
`vtime` abstracts a `time.Time` as its RFC3339 second count. -/
inductive Value where
| vint : Int → Value
| vbool : Bool → Value
| vstr : String → Value
| vnamedStr : String → String → Value
| vtime : Int → Value
| vptr : Ty → Option Value → Value
| vslice : Ty → List Value → Value
| vstruct : String → List (String × Value) → Value
| invalid : Value

/-- The dynamic type of a value, as `reflect.TypeOf` / `reflect.Value.Type`
report it (used by `reflect.Value.Set` assignability checks and by
`reflect.New(reflect.TypeOf(newValue))`).  Never consulted on `invalid`
(reflect panics first on every such path). -/
def valueTy : Value → Ty
| .vint _ => .tint
| .vbool _ => .tbool
| .vstr _ => .tstring
| .vnamedStr n _ => .tnamed n
| .vtime _ => .ttime
| .vptr e _ => .tptr e
| .vslice e _ => .tslice e
| .vstruct n _ => .tstruct n
| .invalid => .tstruct ("<invalid>")

/-- The name `reflect.Type.String()` reports: the fully qualified type name used as the key of
the converter table (`defaultTypeTransformFnMap`). -/
def tyName : Ty → String
| .tint => ("int")
| .tbool => ("bool")
| .tstring => ("string")
| .tnamed n => n
| .ttime => ("time.Time")
| .tptr e => ("*") ++ tyName e
| .tslice e => ("[]") ++ tyName e
| .tstruct n => n

/-- Model of `reflect.Indirect`: dereference a pointer; `Indirect` of a nil pointer is
reflect's zero `Value`; any non-pointer is returned unchanged. -/
def indirect : Value → Value
| .vptr _ (some v) => v
| .vptr _ none => .invalid
| v => v

mutual
/-- Model of `reflect.Value.IsZero`.  `none` models the run-time panic
`reflect: call of reflect.Value.IsZero on zero Value`.  A struct is zero when
all its fields are zero (short-circuiting like the reflect implementation). -/
def isZeroV : Value → Option Bool
| .invalid => none
| .vint n => some (n == 0)
| .vbool b => some (b == false)
| .vstr s => some (s == (""))
| .vnamedStr _ s => some (s == (""))
| .vtime t => some (t == 0)
| .vptr _ p => some p.isNone
| .vslice _ xs => some xs.isEmpty
| .vstruct _ fs => isZeroFields fs

/-- All fields zero, short-circuiting on the first non-zero field. -/
def isZeroFields : List (String × Value) → Option Bool
| [] => some true
| (_, v) :: rest =>
    match isZeroV v with
    | none => none
    | some b => if b then isZeroFields rest else some false
end

/-- Model of `fmt.Sprintf` with the `%v` verb, as used by the string-target case of
`mapValues`.  Composite and pointer renderings are abstracted (no claim and no
test observes them); scalars render in Go's canonical textual form. -/
def sprintfV : Value → String
| .vint n => toString n
| .vbool b => cond b ("true") ("false")
| .vstr s => s
| .vnamedStr _ s => s
| .vtime t => ("time:") ++ toString t
| .vptr _ _ => ("<ptr>")
| .vslice _ _ => ("<slice>")
| .vstruct _ _ => ("<struct>")
| .invalid => ("<invalid>")

/-- The type `structBuilderFn` (`func(interface{}) interface{}`): a converter.  `none`
models a run-time panic inside the function (e.g. the failed type assertion
`value.(time.Time)` in the built-in converter). -/
def structBuilderFn := Value → Option Value

/-- The converter table type `map[string]structBuilderFn`, as an association
list keyed by `reflect.Type.String()` names. -/
def Table := List (String × structBuilderFn)

/-- Go map lookup `fn, ok := m[k]`. -/
def lookupTable : Table → String → Option structBuilderFn
| [], _ => none
| (k, fn) :: rest, n => if k = n then some fn else lookupTable rest n

/-- Go map assignment `m[k] = v`: overwrite the entry if the key exists,
otherwise add it. -/
def insertTable : Table → String → structBuilderFn → Table
| [], k, fn => [(k, fn)]
| (k0, f0) :: rest, k, fn =>
    if k0 = k then (k, fn) :: rest else (k0, f0) :: insertTable rest k fn

/-- The merge loop `for k, v := range builders` assigning `builderMap[k] = v`: merge `upd` into `base`
key by key. -/
def mergeTable (base upd : Table) : Table :=
  upd.foldl (fun acc p => insertTable acc p.1 p.2) base

/-- The built-in converter table `defaultTypeTransformFnMap`.  Its single entry
round-trips a `time.Time` through `Format(RFC3339)` / `Parse(RFC3339)`; on the
abstract second-count representation that canonicalization is the identity, and
the leading type assertion `value.(time.Time)` panics on any other value. -/
def defaultTypeTransformFnMap : Table :=
  [(("time.Time"), fun v => match v with | .vtime t => some (.vtime t) | _ => none)]

/-- Model of `FieldByName` on a struct's field list: the zero `Value` (here `invalid`)
when no field of that name exists. -/
def lookupField : List (String × Value) → String → Value
| [], _ => .invalid
| (k, v) :: rest, n => if k = n then v else lookupField rest n

/-- In-place `reflect.Value.Set` on a struct field, as the mutation of the
struct's field list.  Setting a name that does not occur is a no-op (it cannot
occur: the loop iterates the declared fields of the target type). -/
def setField : List (String × Value) → String → Value → List (String × Value)
| [], _, _ => []
| (k, v) :: rest, n, nv =>
    if k = n then (k, nv) :: rest else (k, v) :: setField rest n nv

/-- Resolve the declared field list of a named struct type. -/
def fieldsOf : TyEnv → String → List (String × Ty)
| [], _ => []
| (k, fs) :: rest, n => if k = n then fs else fieldsOf rest n

/-- Model of `reflect.New(t).Elem()` / `reflect.MakeSlice` element initialization: the
zero value of a type.  The fuel bounds the by-value struct nesting depth (Go
forbids by-value struct cycles, so `env.length + 1` always suffices for a
well-formed environment); pointer and slice zero values stop the recursion. -/
def zeroValue (env : TyEnv) : Nat → Ty → Value
| _, .tint => .vint 0
| _, .tbool => .vbool false
| _, .tstring => .vstr ("")
| _, .tnamed n => .vnamedStr n ("")
| _, .ttime => .vtime 0
| _, .tptr e => .vptr e none
| _, .tslice e => .vslice e []
| 0, .tstruct _ => .invalid
| fuel + 1, .tstruct n =>
    .vstruct n ((fieldsOf env n).map (fun p => (p.1, zeroValue env fuel p.2)))

/-- The zero value with always-sufficient fuel. -/
def zeroValueD (env : TyEnv) (t : Ty) : Value :=
  zeroValue env (env.length + 1) t

/-- The error values of the package (`errors.go` / `part_001`):
`ParametersError` from `NewParamErrorNotNil` and `ErrTargetParamNotPointer`,
`FieldError` from `NewFieldError`, and the `fmt.Errorf` of the slice case. -/
inductive MapError where
| paramNotNil : String → MapError
| targetNotPointer : MapError
| fieldError : String → String → MapError → MapError
| cannotMapToSlice : String → MapError
deriving DecidableEq

/-- The result of one `mapValues` call: the returned `interface{}` (`none` for a
nil interface), the returned error, and the target's contents after the call's
in-place mutations.  `panic` is an unrecovered run-time fault. -/
inductive MapOutcome where
| panic : MapOutcome
| err : MapError → Value → MapOutcome
| ok : Option Value → Value → MapOutcome

/-- The result of the struct-case field loop over the remaining fields. -/
inductive FieldsOutcome where
| panic : FieldsOutcome
| err : MapError → List (String × Value) → FieldsOutcome
| done : List (String × Value) → FieldsOutcome

/-- The result of the slice-case element loop. -/
inductive ElemsOutcome where
| panic : ElemsOutcome
| done : List Value → ElemsOutcome

/-- The struct case's assignment of a produced non-nil `newValue` into one
target field: if the field is pointer-shaped the value is wrapped in a freshly
allocated cell (`reflect.New(reflect.TypeOf(newValue))`) first; either
`reflect.Value.Set` panics (`none`) unless the dynamic type of `newValue` is
identical to the field's (element) type. -/
def assignField (fname : String) (fty : Ty) (nv : Value)
    (tfields : List (String × Value)) : Option (List (String × Value)) :=
  match fty with
  | .tptr e =>
      if valueTy nv = e then some (setField tfields fname (.vptr e (some nv)))
      else none
  | _ =>
      if valueTy nv = fty then some (setField tfields fname nv)
      else none

/-- Size bound for the result of a field lookup, for the termination measure of
the mapper: the looked-up value is a component of the list (or the small
`invalid`). -/
theorem lookupField_sizeOf_le (l : List (String × Value)) (n : String) :
    sizeOf (lookupField l n) ≤ sizeOf l := by
  induction l with
  | nil => simp [lookupField]
  | cons hd t ih =>
      obtain ⟨k, v⟩ := hd
      simp only [lookupField]
      split
      · simp only [List.cons.sizeOf_spec, Prod.mk.sizeOf_spec]
        omega
      · simp only [List.cons.sizeOf_spec, Prod.mk.sizeOf_spec]
        omega

/-- Lexicographic helper for the termination measure of the mapper. -/
theorem lex3_of_le_lt {a1 b1 c1 a2 b2 c2 : Nat} (h1 : a1 ≤ a2)
    (h2 : b1 < b2 ∨ (b1 = b2 ∧ c1 < c2)) :
    Prod.Lex (· < ·) (Prod.Lex (· < ·) (· < ·)) (a1, b1, c1) (a2, b2, c2) := by
  rcases Nat.lt_or_ge a1 a2 with h | h
  · exact Prod.Lex.left _ _ h
  · have he : a1 = a2 := Nat.le_antisymm h1 h
    subst he
    rcases h2 with h2 | ⟨he2, h2⟩
    · exact Prod.Lex.right _ (Prod.Lex.left _ _ h2)
    · subst he2
      exact Prod.Lex.right _ (Prod.Lex.right _ h2)

/-- Lexicographic helper: strict decrease in the first component. -/
theorem lex3_of_lt {a1 b1 c1 a2 b2 c2 : Nat} (h1 : a1 < a2) :
    Prod.Lex (· < ·) (Prod.Lex (· < ·) (· < ·)) (a1, b1, c1) (a2, b2, c2) :=
  Prod.Lex.left _ _ h1

/-- Indirection never grows a value. -/
theorem indirect_sizeOf_le (v : Value) : sizeOf (indirect v) ≤ sizeOf v := by
  cases v with
  | vptr e p =>
      cases p with
      | none => simp [indirect]
      | some w => simp [indirect]; omega
  | vint n => simp [indirect]
  | vbool b => simp [indirect]
  | vstr s => simp [indirect]
  | vnamedStr a b => simp [indirect]
  | vtime t => simp [indirect]
  | vslice e xs => simp [indirect]
  | vstruct n fs => simp [indirect]
  | invalid => simp [indirect]

/-- If indirection through a value reaches a slice, the slice's elements are
strictly smaller than the original value. -/
theorem indirect_slice_sizeOf {v : Value} {e : Ty} {xs : List Value}
    (h : indirect v = .vslice e xs) : sizeOf xs < sizeOf v := by
  have h2 : sizeOf xs < sizeOf (indirect v) := by
    rw [h]; simp
  exact lt_of_lt_of_le h2 (indirect_sizeOf_le v)

mutual
/-- The heart of src/object_mapper.go: `mapValues` recursively maps `src` into
the target location, whose declared type is `tgtTy` and current contents `tgt`,
dispatching on the target's kind.  `global` is the process-wide
`defaultTypeTransformFnMap` as it stands during this call (the code consults
the global map, not the `builders` parameter, for converter lookups; `builders`
is passed along recursive calls but never read, exactly as in the source).
The `time.Time` target kind is Struct in Go, but recursing into its unexported
fields panics at `targetValue.Interface()`; it is modelled as an immediate
panic (every test path intercepts it through the converter table first). -/
def mapValues (env : TyEnv) (global builders : Table) (src : Value) (tgtTy : Ty)
    (tgt : Value) : MapOutcome :=
  match tgt with
  | .invalid => .panic
  | tgtVal =>
    match tgtTy with
    | .tptr elemTy =>
        -- If source value is a Zero value, there's no value to be copied
        match isZeroV src with
        | none => .panic
        | some true => .ok none tgtVal
        | some false =>
            let srcInd := indirect src
            match lookupTable global (tyName elemTy) with
            | some fn =>
                match fn srcInd with
                | none => .panic
                | some nv => .ok (some nv) tgtVal
            | none =>
                -- build the value into an artificial settable zero target,
                -- the error of the recursive call being discarded
                match mapValues env global builders srcInd elemTy
                    (zeroValueD env elemTy) with
                | .panic => .panic
                | .err _ _ => .ok none tgtVal
                | .ok r _ => .ok r tgtVal
    | .tstruct n =>
        match src with
        | .vstruct _ sfields =>
            match tgtVal with
            | .vstruct tn tfields =>
                match mapFields env global builders sfields (fieldsOf env n)
                    tfields with
                | .panic => .panic
                | .err e tf => .err e (.vstruct tn tf)
                | .done tf => .ok (some (.vstruct tn tf)) (.vstruct tn tf)
            | _ => .panic
        | _ => .panic
    | .ttime => .panic
    | .tslice elemTy =>
        match src with
        | .invalid => .ok none tgtVal
        | s =>
            match h : indirect s with
            | .vslice _ xs =>
                match mapSliceElems env global builders elemTy xs with
                | .panic => .panic
                | .done elems =>
                    .ok (some (.vslice elemTy elems)) (.vslice elemTy elems)
            | .invalid => .panic
            | other => .err (.cannotMapToSlice (tyName (valueTy other))) tgtVal
    | .tstring | .tnamed _ =>
        -- attempt conversion to string; reflect.Set then panics unless the
        -- target's type is exactly `string`
        match src with
        | .invalid => .panic
        | s =>
            if tgtTy = .tstring then
              .ok (some (.vstr (sprintfV s))) (.vstr (sprintfV s))
            else .panic
    | .tint | .tbool =>
        match src with
        | .invalid => .panic
        | s =>
            if valueTy s = tgtTy then .ok (some s) s
            else .panic
termination_by (sizeOf src, 1, sizeOf tgtTy)
decreasing_by
  all_goals simp_wf
  all_goals
    first
    | exact lex3_of_le_lt (indirect_sizeOf_le src) (Or.inr ⟨rfl, by omega⟩)
    | exact lex3_of_lt (indirect_slice_sizeOf h)
    | exact lex3_of_lt (by omega)

/-- The struct case's field loop: for each declared target field, look up the
equally named source field, use a registered converter for the field's type if
one exists, otherwise recurse; skip the assignment when the produced value is
nil; wrap it into a fresh cell when the field is pointer-shaped.  (The source
guard `if !sourceValue.IsValid() { continue }` of the loop body is dead code —
`sourceValue` is the valid struct matched by the caller — and is therefore not
reproduced; the per-field `sourceFieldValue` is never guarded.) -/
def mapFields (env : TyEnv) (global builders : Table)
    (sfields : List (String × Value)) :
    List (String × Ty) → List (String × Value) → FieldsOutcome
| [], tfields => .done tfields
| (fname, fty) :: rest, tfields =>
    let tfv := lookupField tfields fname
    let sfv := lookupField sfields fname
    match lookupTable global (tyName fty) with
    | some fn =>
        -- fn(sourceFieldValue.Interface()) panics when the field is absent
        match sfv with
        | .invalid => .panic
        | sv =>
            match fn sv with
            | none => .panic
            | some nv =>
                match assignField fname fty nv tfields with
                | none => .panic
                | some tf => mapFields env global builders sfields rest tf
    | none =>
        match mapValues env global builders sfv fty tfv with
        | .panic => .panic
        | .err e t =>
            .err (.fieldError fname ("invalid field projection") e)
              (setField tfields fname t)
        | .ok r t =>
            -- the recursive call has already mutated the field in place
            let tf1 := setField tfields fname t
            match r with
            | none => mapFields env global builders sfields rest tf1
            | some nv =>
                match assignField fname fty nv tf1 with
                | none => .panic
                | some tf => mapFields env global builders sfields rest tf
termination_by flds _ => (sizeOf sfields, 2, sizeOf flds)
decreasing_by
  all_goals simp_wf
  all_goals
    first
    | exact lex3_of_le_lt (lookupField_sizeOf_le sfields fname) (Or.inl (by omega))
    | exact lex3_of_le_lt (Nat.le_refl _) (Or.inr ⟨rfl, by omega⟩)

/-- The slice case's element loop: each source element is mapped into a fresh
zero element of the target slice; both return values of the recursive call are
discarded (element-level errors are swallowed), the element's final contents
being whatever the in-place mutations produced; panics still propagate. -/
def mapSliceElems (env : TyEnv) (global builders : Table) (elemTy : Ty) :
    List Value → ElemsOutcome
| [] => .done []
| x :: rest =>
    match mapValues env global builders x elemTy (zeroValueD env elemTy) with
    | .panic => .panic
    | .err _ t | .ok _ t =>
        match mapSliceElems env global builders elemTy rest with
        | .panic => .panic
        | .done es => .done (t :: es)
termination_by xs => (sizeOf xs, 0, 0)
decreasing_by
  all_goals simp_wf
  all_goals exact lex3_of_lt (by omega)
end

/-- Model of `verifyParameters(source, target)`: nil target, then nil source, then a
non-pointer target.  The arguments are `interface{}` values, `none` being the
nil interface. -/
def verifyParameters (source target : Option Value) : Option MapError :=
  if target.isNone then some (.paramNotNil ("target"))
  else if source.isNone then some (.paramNotNil ("source"))
  else
    match target with
    | some (.vptr _ _) => none
    | _ => some .targetNotPointer

/-- The observable result of one entry-point call: the returned error (or a
run-time panic), together with the final contents of the caller's `target`
argument. -/
inductive TopOutcome where
| panic : TopOutcome
| err : MapError → Option Value → TopOutcome
| ok : Option Value → TopOutcome

/-- Model of `MapWithBuilders(source, target, builders)`.  The statement
`var builderMap = defaultTypeTransformFnMap` aliases the process-wide map (its
`// shallow copy` comment notwithstanding), so the merge loop mutates the
global table in place; the second component of the result is the global
`defaultTypeTransformFnMap` after the call.  `reflect.Indirect` of the target
pointer yields the settable location handed to `mapValues`; for a typed nil
pointer target the indirected value is reflect's zero Value and `mapValues`
panics at `targetValue.Interface()`. -/
def MapWithBuilders (env : TyEnv) (global : Table) (source target : Option Value)
    (builders : Table) : TopOutcome × Table :=
  match verifyParameters source target with
  | some e => (.err e target, global)
  | none =>
    let builderMap := mergeTable global builders
    match source, target with
    | some sv, some (.vptr ety p) =>
        match p with
        | none => (.panic, builderMap)
        | some cur =>
            match mapValues env builderMap builderMap sv ety cur with
            | .panic => (.panic, builderMap)
            | .err e t => (.err e (some (.vptr ety (some t))), builderMap)
            | .ok _ t => (.ok (some (.vptr ety (some t))), builderMap)
    | _, _ => (.panic, builderMap)  -- unreachable: ruled out by verifyParameters

/-- Model of `Map(source, target)`: delegates to `MapWithBuilders` with the process-wide
`defaultTypeTransformFnMap` itself passed as the builders argument. -/
def Map (env : TyEnv) (global : Table) (source target : Option Value) :
    TopOutcome × Table :=
  MapWithBuilders env global source target global

/-! ## Shared evaluation lemmas for the converter table -/

/-- Merging the default table into itself (as `Map` does) leaves it unchanged. -/
theorem merge_default_self :
    mergeTable defaultTypeTransformFnMap defaultTypeTransformFnMap
    = defaultTypeTransformFnMap := rfl

/-- The built-in table has no converter for `string`. -/
theorem lookup_default_string :
    lookupTable defaultTypeTransformFnMap ("string") = none := rfl

/-- The built-in table has no converter for `int`. -/
theorem lookup_default_int :
    lookupTable defaultTypeTransformFnMap ("int") = none := rfl

/-- The built-in table has no converter for `*time.Time` (its only key is the
element type `time.Time` itself). -/
theorem lookup_default_ptr_time :
    lookupTable defaultTypeTransformFnMap ("*time.Time") = none := rfl

/-- Dispatch of an entry call that passes parameter verification: for a non-nil
source and a non-nil pointer target, `MapWithBuilders` merges the builders into
the global table, runs `mapValues` on the indirected target, and wraps its
outcome. -/
theorem MapWithBuilders_eval (env : TyEnv) (g b : Table) (src cur : Value)
    (ety : Ty) :
    MapWithBuilders env g (some src) (some (.vptr ety (some cur))) b
    = (match mapValues env (mergeTable g b) (mergeTable g b) src ety cur with
       | .panic => (TopOutcome.panic, mergeTable g b)
       | .err e t => (.err e (some (.vptr ety (some t))), mergeTable g b)
       | .ok _ t => (.ok (some (.vptr ety (some t))), mergeTable g b)) := by
  cases hm : mapValues env (mergeTable g b) (mergeTable g b) src ety cur <;>
    simp [MapWithBuilders, verifyParameters, hm]

/-! ## Claim C1 -/

/-- A source and a target record type declaring one shared field `N` of the
same declared type `T`. -/
def envOneField (N : String) (T : Ty) : TyEnv :=
  [(("S"), [(N, T)]), (("T2"), [(N, T)])]

/-- A target record type with one pointer field shared with the source. -/
def envPtrField : TyEnv := [(("T2"), [(("P"), .tptr .tint)])]

/-- The `{Name string, Age int}` source and target of the spec's scenario. -/
def envScenario : TyEnv :=
  [(("Source"), [(("Name"), .tstring), (("Age"), .tint)]),
   (("Target"), [(("Name"), .tstring), (("Age"), .tint)])]

/-- C1: for records that both declare a field with the same name `N` and the
same declared type `T`, a successful `Map` copies the source field's value into
the target field unchanged — stated for every field name `N`, every scalar
declared type `T` and every value of that type; for a pointer-typed shared
field (the copy is a freshly allocated cell holding the same value); and for
the spec's scenario `{Name: "John", Age: 23}`-shaped records with arbitrary
field values. -/
theorem mapper_C1 :
    (∀ (N : String) (T : Ty) (v : Value),
        (T = .tint ∨ T = .tbool ∨ T = .tstring) → valueTy v = T →
        Map (envOneField N T) defaultTypeTransformFnMap
          (some (.vstruct ("S") [(N, v)]))
          (some (.vptr (.tstruct ("T2"))
            (some (zeroValueD (envOneField N T) (.tstruct ("T2"))))))
        = (.ok (some (.vptr (.tstruct ("T2")) (some (.vstruct ("T2") [(N, v)])))),
           defaultTypeTransformFnMap))
    ∧ (∀ (n : Int),
        Map envPtrField defaultTypeTransformFnMap
          (some (.vstruct ("S") [(("P"), .vptr .tint (some (.vint n)))]))
          (some (.vptr (.tstruct ("T2"))
            (some (.vstruct ("T2") [(("P"), .vptr .tint none)]))))
        = (.ok (some (.vptr (.tstruct ("T2"))
            (some (.vstruct ("T2") [(("P"), .vptr .tint (some (.vint n)))])))),
           defaultTypeTransformFnMap))
    ∧ (∀ (name : String) (age : Int),
        Map envScenario defaultTypeTransformFnMap
          (some (.vstruct ("Source") [(("Name"), .vstr name), (("Age"), .vint age)]))
          (some (.vptr (.tstruct ("Target"))
            (some (zeroValueD envScenario (.tstruct ("Target"))))))
        = (.ok (some (.vptr (.tstruct ("Target"))
            (some (.vstruct ("Target")
              [(("Name"), .vstr name), (("Age"), .vint age)])))),
           defaultTypeTransformFnMap)) := by
  refine ⟨?_, ?_, ?_⟩
  · intro N T v hT hv
    rcases hT with rfl | rfl | rfl <;>
      cases v <;> simp [valueTy] at hv <;>
      simp [Map, MapWithBuilders, verifyParameters, mergeTable, insertTable,
        defaultTypeTransformFnMap, mapValues, mapFields, lookupTable,
        lookupField, setField, fieldsOf, zeroValueD, zeroValue, tyName, valueTy,
        sprintfV, assignField, envOneField, isZeroV, indirect]
  · intro n
    simp [Map, MapWithBuilders, verifyParameters, mergeTable, insertTable,
      defaultTypeTransformFnMap, mapValues, mapFields, lookupTable,
      lookupField, setField, fieldsOf, zeroValueD, zeroValue, tyName, valueTy,
      sprintfV, assignField, envPtrField, isZeroV, indirect]
  · intro name age
    simp [Map, MapWithBuilders, verifyParameters, mergeTable, insertTable,
      defaultTypeTransformFnMap, mapValues, mapFields, lookupTable,
      lookupField, setField, fieldsOf, zeroValueD, zeroValue, tyName, valueTy,
      sprintfV, assignField, envScenario, isZeroV, indirect]

/-- C1 witness: the general part of `mapper_C1` applied at field name "Name",
declared type `string` and source value "John". -/
theorem mapper_C1_witness :
    Map (envOneField ("Name") .tstring) defaultTypeTransformFnMap
      (some (.vstruct ("S") [(("Name"), .vstr ("John"))]))
      (some (.vptr (.tstruct ("T2"))
        (some (zeroValueD (envOneField ("Name") .tstring) (.tstruct ("T2"))))))
    = (.ok (some (.vptr (.tstruct ("T2"))
        (some (.vstruct ("T2") [(("Name"), .vstr ("John"))])))),
       defaultTypeTransformFnMap) :=
  mapper_C1.1 ("Name") .tstring (.vstr ("John")) (Or.inr (Or.inr rfl)) rfl

/-! ## Claim C2 -/

/-- C2: a nil target argument yields the `ParametersError` naming "target", a
nil source (with a non-nil target) the one naming "source", and a non-pointer
target yields `ErrTargetParamNotPointer`; each error is produced by
`verifyParameters` before `mapValues` runs, so the target argument is returned
unchanged and the global converter table is untouched. -/
theorem mapper_C2 (env : TyEnv) (g : Table) (s v : Value) :
    (Map env g (some s) none = (.err (.paramNotNil ("target")) none, g))
    ∧ (Map env g none (some v) = (.err (.paramNotNil ("source")) (some v), g))
    ∧ ((∀ e p, v ≠ .vptr e p) →
        Map env g (some s) (some v) = (.err .targetNotPointer (some v), g)) := by
  refine ⟨rfl, rfl, ?_⟩
  intro h
  cases v
  case vptr e p => exact absurd rfl (h e p)
  all_goals rfl

/-- C2 witness: `mapper_C2` applied with a struct (non-pointer) target value. -/
theorem mapper_C2_witness :
    (Map [] [] (some (.vint 0)) none = (.err (.paramNotNil ("target")) none, []))
    ∧ (Map [] [] none (some (.vint 1)) = (.err (.paramNotNil ("source")) (some (.vint 1)), []))
    ∧ (Map [] [] (some (.vint 0)) (some (.vint 1))
        = (.err .targetNotPointer (some (.vint 1)), [])) :=
  ⟨(mapper_C2 [] [] (.vint 0) (.vint 1)).1,
   (mapper_C2 [] [] (.vint 0) (.vint 1)).2.1,
   (mapper_C2 [] [] (.vint 0) (.vint 1)).2.2 (fun _ _ h => Value.noConfusion h)⟩

/-! ## Claim C3 -/

/-- A one-int-field source and target for exercising `MapWithBuilders`. -/
def envC3 : TyEnv := [(("S"), [(("A"), .tint)]), (("T2"), [(("A"), .tint)])]

/-- C3: evaluation of `MapWithBuilders` at a call that passes a caller converter
under the fresh key "K": the key is absent from `defaultTypeTransformFnMap`,
the call itself succeeds, and yet after the call the process-wide table (the
second component of the result — the statement
`var builderMap = defaultTypeTransformFnMap` aliases rather than copies the
global map) does contain an entry for "K": the caller's entry persists, contrary
to the claimed copy-on-call merge. -/
theorem mapper_C3 :
    lookupTable defaultTypeTransformFnMap ("K") = none
    ∧ (MapWithBuilders envC3 defaultTypeTransformFnMap
        (some (.vstruct ("S") [(("A"), .vint 1)]))
        (some (.vptr (.tstruct ("T2"))
          (some (zeroValueD envC3 (.tstruct ("T2"))))))
        [(("K"), fun v => some v)]).1
      = .ok (some (.vptr (.tstruct ("T2"))
          (some (.vstruct ("T2") [(("A"), .vint 1)]))))
    ∧ (lookupTable (MapWithBuilders envC3 defaultTypeTransformFnMap
        (some (.vstruct ("S") [(("A"), .vint 1)]))
        (some (.vptr (.tstruct ("T2"))
          (some (zeroValueD envC3 (.tstruct ("T2"))))))
        [(("K"), fun v => some v)]).2 ("K")).isSome = true := by
  refine ⟨rfl, ?_, ?_⟩ <;>
    simp [MapWithBuilders, verifyParameters, mergeTable, insertTable,
      defaultTypeTransformFnMap, mapValues, mapFields, lookupTable,
      lookupField, setField, fieldsOf, zeroValueD, zeroValue, tyName, valueTy,
      sprintfV, assignField, envC3, isZeroV, indirect]

/-! ## Claim C4 -/

/-- A target record with an extra field "Age" that the source lacks. -/
def envC4 : TyEnv := [(("Target"), [(("Name"), .tstring), (("Age"), .tint)])]

/-- Declared fields of the C4 target type. -/
theorem fieldsOf_envC4 :
    fieldsOf envC4 ("Target") = [(("Name"), .tstring), (("Age"), .tint)] := rfl

/-- The zero value of the C4 target type. -/
theorem zero_envC4 :
    zeroValueD envC4 (.tstruct ("Target"))
    = .vstruct ("Target") [(("Name"), .vstr ("")), (("Age"), .vint 0)] := rfl

/-- C4: evaluation of the mapper at a target field ("Age") with no equally
named source field.  The struct loop guards `sourceValue.IsValid()` instead of
`sourceFieldValue.IsValid()`, so the zero `Value` produced by `FieldByName`
reaches the recursive call and `reflect.Value.Set` panics
(`reflect: Set using zero Value argument`) instead of the mapping completing
with the field left at its zero value. -/
theorem mapper_C4 :
    (Map envC4 defaultTypeTransformFnMap
      (some (.vstruct ("Source") [(("Name"), .vstr ("John"))]))
      (some (.vptr (.tstruct ("Target"))
        (some (zeroValueD envC4 (.tstruct ("Target"))))))).1
    = .panic := by
  have hm : mapValues envC4
      (mergeTable defaultTypeTransformFnMap defaultTypeTransformFnMap)
      (mergeTable defaultTypeTransformFnMap defaultTypeTransformFnMap)
      (.vstruct ("Source") [(("Name"), .vstr ("John"))])
      (.tstruct ("Target")) (zeroValueD envC4 (.tstruct ("Target")))
      = .panic := by
    rw [merge_default_self, zero_envC4, mapValues.eq_3, fieldsOf_envC4]
    simp [mapFields, mapValues, lookupField, setField, valueTy, sprintfV,
      assignField, isZeroV, indirect, tyName, lookup_default_string,
      lookup_default_int]
  unfold Map
  rw [MapWithBuilders_eval, hm]

/-! ## Claim C5 -/

/-- A target record with a `*time.Time`-shaped optional field and a string
field, mirroring the repository's nil-pointer test. -/
def envC5 : TyEnv :=
  [(("Target"), [(("Deleted"), .tptr .ttime), (("Name"), .tstring)])]

/-- Declared fields of the C5 target type. -/
theorem fieldsOf_envC5 :
    fieldsOf envC5 ("Target")
    = [(("Deleted"), .tptr .ttime), (("Name"), .tstring)] := rfl

/-- The zero value of the C5 target type. -/
theorem zero_envC5 :
    zeroValueD envC5 (.tstruct ("Target"))
    = .vstruct ("Target")
        [(("Deleted"), .vptr .ttime none), (("Name"), .vstr (""))] := rfl

/-- C5: a nil source pointer (of any element type `e`) mapped into the
pointer-shaped target field leaves that field nil — no allocation, the pointer
stays `none` — while the rest of the mapping succeeds normally and no run-time
fault occurs. -/
theorem mapper_C5 (e : Ty) (name : String) :
    Map envC5 defaultTypeTransformFnMap
      (some (.vstruct ("Source")
        [(("Deleted"), .vptr e none), (("Name"), .vstr name)]))
      (some (.vptr (.tstruct ("Target"))
        (some (zeroValueD envC5 (.tstruct ("Target"))))))
    = (.ok (some (.vptr (.tstruct ("Target"))
        (some (.vstruct ("Target")
          [(("Deleted"), .vptr .ttime none), (("Name"), .vstr name)])))),
       defaultTypeTransformFnMap) := by
  simp [Map, MapWithBuilders, verifyParameters, merge_default_self, mapValues,
    mapFields, fieldsOf_envC5, zero_envC5, lookup_default_string,
    lookup_default_ptr_time, lookupField, setField, valueTy, sprintfV,
    assignField, isZeroV, indirect, tyName]

/-! ## Claim C6 -/

/-- The target record type of the repository's slice test (`Regions`). -/
def envC6 : TyEnv := [(("Regions"), [(("Name"), .tstring)])]

/-- A source `Country` record with a name and a population. -/
def mkCountry (p : String × Int) : Value :=
  .vstruct ("Country") [(("Name"), .vstr p.1), (("Population"), .vint p.2)]

/-- The expected image of `mkCountry p`: a `Regions` record with the name. -/
def mkRegion (p : String × Int) : Value :=
  .vstruct ("Regions") [(("Name"), .vstr p.1)]

/-- Declared fields of `Regions`. -/
theorem fieldsOf_envC6 : fieldsOf envC6 ("Regions") = [(("Name"), .tstring)] := rfl

/-- The zero `Regions` value. -/
theorem zero_envC6 :
    zeroValueD envC6 (.tstruct ("Regions"))
    = .vstruct ("Regions") [(("Name"), .vstr (""))] := rfl

/-- Element loop on a list of countries: every element is mapped independently
and in order into its `Regions` image. -/
theorem mapSliceElems_countries (ps : List (String × Int)) :
    mapSliceElems envC6 defaultTypeTransformFnMap defaultTypeTransformFnMap
      (.tstruct ("Regions")) (ps.map mkCountry)
    = .done (ps.map mkRegion) := by
  induction ps with
  | nil => simp [mapSliceElems]
  | cons p rest ih =>
      simp [mapSliceElems, mapValues, mapFields, mkCountry, mkRegion,
        fieldsOf_envC6, zero_envC6, lookup_default_string, lookupField,
        setField, valueTy, sprintfV, assignField, isZeroV, indirect, tyName, ih]

/-- C6: mapping a source list of N `Country` records into a `[]Regions` target
produces a target list of exactly N elements in the same order, element i being
the recursively mapped image of source element i (here: `mkRegion` of the
i-th pair). -/
theorem mapper_C6 (ps : List (String × Int)) :
    Map envC6 defaultTypeTransformFnMap
      (some (.vslice (.tstruct ("Country")) (ps.map mkCountry)))
      (some (.vptr (.tslice (.tstruct ("Regions")))
        (some (.vslice (.tstruct ("Regions")) []))))
    = (.ok (some (.vptr (.tslice (.tstruct ("Regions")))
        (some (.vslice (.tstruct ("Regions")) (ps.map mkRegion))))),
       defaultTypeTransformFnMap) := by
  simp [Map, MapWithBuilders, verifyParameters, merge_default_self,
    mapValues, indirect, mapSliceElems_countries ps]

/-! ## Claim C7 -/

/-- The target record of the repository's custom-string-type test: a plain
string field plus a field of the named string type `mapper.JSONStr`. -/
def envC7 : TyEnv :=
  [(("Target"),
    [(("Username"), .tstring), (("Items"), .tnamed ("mapper.JSONStr"))])]

/-- Declared fields of the C7 target type. -/
theorem fieldsOf_envC7 :
    fieldsOf envC7 ("Target")
    = [(("Username"), .tstring), (("Items"), .tnamed ("mapper.JSONStr"))] := rfl

/-- The zero value of the C7 target type. -/
theorem zero_envC7 :
    zeroValueD envC7 (.tstruct ("Target"))
    = .vstruct ("Target")
        [(("Username"), .vstr ("")),
         (("Items"), .vnamedStr ("mapper.JSONStr") (""))] := rfl

/-- The built-in table has no converter for the named type `mapper.JSONStr`. -/
theorem lookup_default_jsonstr :
    lookupTable defaultTypeTransformFnMap ("mapper.JSONStr") = none := rfl

/-- C7: evaluation of the mapper at a target field whose named type
`mapper.JSONStr` requires a converter while none is registered: the string
coercion produces a plain `string`, which `reflect.Value.Set` cannot assign to
the `mapper.JSONStr` field, so the call panics (as the repository's own test
asserts, with a `TODO: error handling` remark) instead of returning a
`MissingConverter` error. -/
theorem mapper_C7 :
    (Map envC7 defaultTypeTransformFnMap
      (some (.vstruct ("Source")
        [(("Username"), .vstr ("demo.username")), (("Items"), .vstr ("[]"))]))
      (some (.vptr (.tstruct ("Target"))
        (some (zeroValueD envC7 (.tstruct ("Target"))))))).1
    = .panic := by
  have hm : mapValues envC7
      (mergeTable defaultTypeTransformFnMap defaultTypeTransformFnMap)
      (mergeTable defaultTypeTransformFnMap defaultTypeTransformFnMap)
      (.vstruct ("Source")
        [(("Username"), .vstr ("demo.username")), (("Items"), .vstr ("[]"))])
      (.tstruct ("Target")) (zeroValueD envC7 (.tstruct ("Target")))
      = .panic := by
    rw [merge_default_self, zero_envC7, mapValues.eq_3, fieldsOf_envC7]
    simp [mapFields, mapValues, lookupField, setField, valueTy, sprintfV,
      assignField, isZeroV, indirect, tyName, lookup_default_string,
      lookup_default_jsonstr]
  unfold Map
  rw [MapWithBuilders_eval, hm]

/-! ## Claim C8

The repository's second, tag-aware implementation (package `mapper`) is
embedded in src/.github/workflows/codecov-report.yml from line 30 on.  Its
definitions are translated below in the `MapperPkg` namespace: this variant
validates parameters with `validateParameters`, builds a genuinely fresh
call-local converter table in `MapWithConverters`, splits `mapValues` into
`mapToPointer` / `mapToStruct` / `mapToSlice` / `mapToString`, and resolves
each target field's feeding source value through `getSourceFieldValue`, which
honors the `mapper:"fromField:..."` and `fromMethod` tag settings. -/

namespace MapperPkg

/-- A parsed `;`-separated setting of a `mapper:"..."` struct tag, as
classified by the `strings.HasPrefix` tests of `getSourceFieldValue`: a
`fromField:<name>` setting, a setting starting with `fromMethod` whose
`strings.Split(setting, ":")[1]` is `<name>`, a setting starting with
`fromMethod` that contains no `:` at all (so that same indexing panics with
index out of range), or any other setting (the loop ignores it).  The
character-level parsing (`structtag.Parse`, `strings.Split`,
`strings.HasPrefix`) is abstracted into this classification. -/
inductive TagSetting where
| fromField : String → TagSetting
| fromMethod : String → TagSetting
| malformedFromMethod : TagSetting
| unknown : TagSetting

/-- A target struct field of the `mapper` package (`reflect.StructField`): its
name, the parsed settings of its `mapper` tag when the tag is present, and its
declared type. -/
structure MField where
  name : String
  mtag : Option (List TagSetting)
  ty : Ty

/-- Declared fields of each named struct type, for this variant. -/
def MEnv := List (String × List MField)

/-- Resolve the declared field list of a named struct type. -/
def mfieldsOf : MEnv → String → List MField
| [], _ => []
| (k, fs) :: rest, n => if k = n then fs else mfieldsOf rest n

/-- The zero-argument methods of the source record's type: method name to the
result values of a call on a given receiver.  `getSourceFieldValue` searches
the value receiver's method set and then an addressable copy's pointer method
set; the table holds what that two-step search can reach, so it collapses into
a single lookup here. -/
def MethodTable := List (String × (Value → List Value))

/-- Method-set lookup by name. -/
def lookupMethod : MethodTable → String → Option (Value → List Value)
| [], _ => none
| (k, fn) :: rest, n => if k = n then some fn else lookupMethod rest n

/-- The result of resolving a source field value: a value (possibly reflect's
zero `Value` for a missing field, which the struct loop then skips), or a
run-time panic. -/
inductive GRes where
| panic : GRes
| val : Value → GRes

/-- FieldByName on the (indirected) source record: the zero `Value` when the
field is absent; panics unless the receiver is a struct. -/
def fieldByNameM (src : Value) (n : String) : GRes :=
  match src with
  | .vstruct _ sf => .val (lookupField sf n)
  | _ => .panic

/-- The settings loop of `getSourceFieldValue`: a `fromField` setting returns
the named source field immediately; a `fromMethod` setting invokes the method
and returns its first result value when the method exists and returns at least
one value, otherwise falls through to the next setting; unrecognized settings
are skipped; and when the loop ends without having returned, the source field
with the target field's own name is used (the same-name fallback after the
loop).  `MethodByName` on reflect's zero `Value` panics. -/
def applySettings (methods : MethodTable) (src : Value) (fallback : String) :
    List TagSetting → GRes
| [] => fieldByNameM src fallback
| .fromField n :: _ => fieldByNameM src n
| .fromMethod n :: rest =>
    match src with
    | .invalid => .panic
    | s =>
        match lookupMethod methods n with
        | some fn =>
            match fn s with
            | v :: _ => .val v
            | [] => applySettings methods s fallback rest
        | none => applySettings methods s fallback rest
| .malformedFromMethod :: _ => .panic
| .unknown :: rest => applySettings methods src fallback rest

/-- Model of `getSourceFieldValue`
(src/.github/workflows/codecov-report.yml): resolve the source value feeding a
target field — the tag settings loop when a `mapper` tag exists, else the
same-name source field. -/
def getSourceFieldValue (methods : MethodTable) (src : Value) (f : MField) :
    GRes :=
  match f.mtag with
  | some settings => applySettings methods src f.name settings
  | none => fieldByNameM src f.name

/-- The zero value of a type over an `MEnv` (as the other variant's
`zeroValue`, with tag-carrying field descriptors). -/
def zeroValueM (env : MEnv) : Nat → Ty → Value
| _, .tint => .vint 0
| _, .tbool => .vbool false
| _, .tstring => .vstr ("")
| _, .tnamed n => .vnamedStr n ("")
| _, .ttime => .vtime 0
| _, .tptr e => .vptr e none
| _, .tslice e => .vslice e []
| 0, .tstruct _ => .invalid
| fuel + 1, .tstruct n =>
    .vstruct n ((mfieldsOf env n).map (fun f => (f.name, zeroValueM env fuel f.ty)))

/-- The zero value with always-sufficient fuel. -/
def zeroValueMD (env : MEnv) (t : Ty) : Value :=
  zeroValueM env (env.length + 1) t

/-- The `mapper` package's built-in converter table `defaultTypeConvertMap`:
the same single `time.Time` canonicalization entry as the other variant's
table. -/
def defaultTypeConvertMap : Table :=
  [(("time.Time"), fun v => match v with | .vtime t => some (.vtime t) | _ => none)]

/-- Model of `mapToString`: render the source with Sprintf and `Set` the
result, which panics unless the target's type is exactly `string`. -/
def mapToString (src : Value) (tgtTy : Ty) : MapOutcome :=
  match src with
  | .invalid => .panic
  | s =>
      if tgtTy = .tstring then .ok (some (.vstr (sprintfV s))) (.vstr (sprintfV s))
      else .panic

/-- Model of `mapToPointer`: as the other variant's pointer case, except that
the converter lookup reads the call-local merged table (`*converters`), not
the process-wide map.  `recur` is the recursive entry (`mapValues` one stack
frame deeper); the helpers of this variant receive it as a parameter so that
the recursion lives solely in `mapValuesM`, structurally on its fuel. -/
def mapToPointer (env : MEnv) (conv : Table)
    (recur : Value → Ty → Value → MapOutcome)
    (src : Value) (elemTy : Ty) (tgtVal : Value) : MapOutcome :=
  match isZeroV src with
  | none => .panic
  | some true => .ok none tgtVal
  | some false =>
      match lookupTable conv (tyName elemTy) with
      | some fn =>
          match fn (indirect src) with
          | none => .panic
          | some nv => .ok (some nv) tgtVal
      | none =>
          match recur (indirect src) elemTy (zeroValueMD env elemTy) with
          | .panic => .panic
          | .err _ _ => .ok none tgtVal
          | .ok r _ => .ok r tgtVal

/-- The field loop of `mapToStruct`: resolve the feeding source value through
`getSourceFieldValue`; skip the field when the resolved value is reflect's
zero `Value` (this variant guards `sourceFieldValue.IsValid()`, so a missing
source field is skipped, not a fault; the `CanInterface` part of the guard is
vacuous here because every modelled field is exported); then converter lookup
in the call-local table or recursion, nil-skip, and assignment with pointer
wrapping. -/
def mapStructFields (methods : MethodTable) (conv : Table)
    (recur : Value → Ty → Value → MapOutcome) (srcInd : Value) :
    List MField → List (String × Value) → FieldsOutcome
| [], tfields => .done tfields
| f :: rest, tfields =>
    let tfv := lookupField tfields f.name
    match getSourceFieldValue methods srcInd f with
    | .panic => .panic
    | .val sfv =>
        match sfv with
        | .invalid => mapStructFields methods conv recur srcInd rest tfields
        | sv =>
            match lookupTable conv (tyName f.ty) with
            | some fn =>
                match fn sv with
                | none => .panic
                | some nv =>
                    match assignField f.name f.ty nv tfields with
                    | none => .panic
                    | some tf2 =>
                        mapStructFields methods conv recur srcInd rest tf2
            | none =>
                match recur sv f.ty tfv with
                | .panic => .panic
                | .err e t =>
                    .err (.fieldError f.name ("invalid field projection") e)
                      (setField tfields f.name t)
                | .ok r t =>
                    let tf1 := setField tfields f.name t
                    match r with
                    | none => mapStructFields methods conv recur srcInd rest tf1
                    | some nv =>
                        match assignField f.name f.ty nv tf1 with
                        | none => .panic
                        | some tf2 =>
                            mapStructFields methods conv recur srcInd rest tf2

/-- Model of `mapToStruct`: indirect the source (this variant accepts a
pointer-to-struct source), then run the field loop over the target type's
declared fields. -/
def mapToStruct (env : MEnv) (methods : MethodTable) (conv : Table)
    (recur : Value → Ty → Value → MapOutcome)
    (src : Value) (n : String) (tgtVal : Value) : MapOutcome :=
  match tgtVal with
  | .vstruct tn tfields =>
      match mapStructFields methods conv recur (indirect src)
          (mfieldsOf env n) tfields with
      | .panic => .panic
      | .err e tf => .err e (.vstruct tn tf)
      | .done tf => .ok (some (.vstruct tn tf)) (.vstruct tn tf)
  | _ => .panic

/-- The slice case's element loop. -/
def mapSliceElemsM (env : MEnv)
    (recur : Value → Ty → Value → MapOutcome) (elemTy : Ty) :
    List Value → ElemsOutcome
| [] => .done []
| x :: rest =>
    match recur x elemTy (zeroValueMD env elemTy) with
    | .panic => .panic
    | .err _ t | .ok _ t =>
        match mapSliceElemsM env recur elemTy rest with
        | .panic => .panic
        | .done es => .done (t :: es)

/-- Model of `mapToSlice`: as the other variant's slice case (element-level
results are discarded, panics propagate). -/
def mapToSlice (env : MEnv)
    (recur : Value → Ty → Value → MapOutcome)
    (src : Value) (elemTy : Ty) (tgtVal : Value) : MapOutcome :=
  match src with
  | .invalid => .ok none tgtVal
  | s =>
      match indirect s with
      | .vslice _ xs =>
          match mapSliceElemsM env recur elemTy xs with
          | .panic => .panic
          | .done elems =>
              .ok (some (.vslice elemTy elems)) (.vslice elemTy elems)
      | .invalid => .panic
      | other => .err (.cannotMapToSlice (tyName (valueTy other))) tgtVal

/-- Model of the `mapper` package's `mapValues`: kind dispatch to the
`mapTo...` helpers, which receive this function one fuel step down as their
recursive entry.  The fuel models the Go call stack: unlike the
`objectmapper` variant, this recursion is not structurally bounded — a
`fromMethod` redirection can feed any computed value (even the receiver
itself) back into the mapper, which in Go recurses until the stack overflows —
so fuel exhaustion is that fault. -/
def mapValuesM (env : MEnv) (methods : MethodTable) (conv : Table) :
    Nat → Value → Ty → Value → MapOutcome
| 0 => fun _ _ _ => .panic
| fuel + 1 => fun src tgtTy tgt =>
    match tgt with
    | .invalid => .panic
    | tgtVal =>
        match tgtTy with
        | .tptr elemTy =>
            mapToPointer env conv (mapValuesM env methods conv fuel)
              src elemTy tgtVal
        | .tstruct n =>
            mapToStruct env methods conv (mapValuesM env methods conv fuel)
              src n tgtVal
        | .ttime => .panic
        | .tslice elemTy =>
            mapToSlice env (mapValuesM env methods conv fuel)
              src elemTy tgtVal
        | .tstring => mapToString src .tstring
        | .tnamed nm => mapToString src (.tnamed nm)
        | .tint | .tbool =>
            match src with
            | .invalid => .panic
            | s =>
                if valueTy s = tgtTy then .ok (some s) s
                else .panic

/-- Model of `validateParameters`: the same checks and order as the other
variant's `verifyParameters`. -/
def validateParameters (source target : Option Value) : Option MapError :=
  if target.isNone then some (.paramNotNil ("target"))
  else if source.isNone then some (.paramNotNil ("source"))
  else
    match target with
    | some (.vptr _ _) => none
    | _ => some .targetNotPointer

/-- Model of `MapWithConverters`: parameters validated, then — unlike
`MapWithBuilders` in the other variant — a genuinely fresh map is built
(`make` followed by two copy loops), so the process-wide
`defaultTypeConvertMap` (returned unchanged as the second component) is never
mutated; the merged call-local table is what `mapValues` reads. -/
def MapWithConverters (env : MEnv) (methods : MethodTable) (global : Table)
    (fuel : Nat) (source target : Option Value) (converters : Table) :
    TopOutcome × Table :=
  match validateParameters source target with
  | some e => (.err e target, global)
  | none =>
      let converterFnMap := mergeTable (mergeTable [] global) converters
      match source, target with
      | some sv, some (.vptr ety p) =>
          match p with
          | none => (.panic, global)
          | some cur =>
              match mapValuesM env methods converterFnMap fuel sv ety cur with
              | .panic => (.panic, global)
              | .err e t => (.err e (some (.vptr ety (some t))), global)
              | .ok _ t => (.ok (some (.vptr ety (some t))), global)
      | _, _ => (.panic, global)

/-- Model of the `mapper` package's `Map`: delegates to `MapWithConverters`
with the process-wide `defaultTypeConvertMap` as the converters argument. -/
def Map (env : MEnv) (methods : MethodTable) (global : Table) (fuel : Nat)
    (source target : Option Value) : TopOutcome × Table :=
  MapWithConverters env methods global fuel source target global

end MapperPkg

/-- Dispatch of a `MapWithConverters` call that passes parameter validation:
the call-local merged table is built and `mapValues` runs on the indirected
target; the global table comes back unchanged. -/
theorem MapWithConverters_eval (env : MapperPkg.MEnv)
    (methods : MapperPkg.MethodTable) (g c : Table) (fuel : Nat)
    (src cur : Value) (ety : Ty) :
    MapperPkg.MapWithConverters env methods g fuel (some src)
      (some (.vptr ety (some cur))) c
    = (match MapperPkg.mapValuesM env methods (mergeTable (mergeTable [] g) c)
          fuel src ety cur with
       | .panic => (TopOutcome.panic, g)
       | .err e t => (.err e (some (.vptr ety (some t))), g)
       | .ok _ t => (.ok (some (.vptr ety (some t))), g)) := by
  cases hm : MapperPkg.mapValuesM env methods (mergeTable (mergeTable [] g) c)
      fuel src ety cur <;>
    simp [MapperPkg.MapWithConverters, MapperPkg.validateParameters, hm]

/-- The target record type of the repository's tag tests: a plain `ID` field,
`FirstName` tagged `fromField:Name`, and `FullName` tagged
`fromMethod:GetFullName`. -/
def envC8 : MapperPkg.MEnv :=
  [(("Target"),
    [⟨("ID"), none, .tint⟩,
     ⟨("FirstName"), some [.fromField ("Name")], .tstring⟩,
     ⟨("FullName"), some [.fromMethod ("GetFullName")], .tstring⟩])]

/-- Declared fields of the C8 target type. -/
theorem mfieldsOf_envC8 :
    MapperPkg.mfieldsOf envC8 ("Target")
    = [⟨("ID"), none, .tint⟩,
       ⟨("FirstName"), some [.fromField ("Name")], .tstring⟩,
       ⟨("FullName"), some [.fromMethod ("GetFullName")], .tstring⟩] := rfl

/-- The zero value of the C8 target type. -/
theorem zeroM_envC8 :
    MapperPkg.zeroValueMD envC8 (.tstruct ("Target"))
    = .vstruct ("Target")
        [(("ID"), .vint 0), (("FirstName"), .vstr ("")),
         (("FullName"), .vstr (""))] := rfl

/-- The merged call-local table a default `Map` call builds equals the default
table itself. -/
theorem convC8 :
    mergeTable (mergeTable [] MapperPkg.defaultTypeConvertMap)
      MapperPkg.defaultTypeConvertMap
    = MapperPkg.defaultTypeConvertMap := rfl

/-- The `mapper` package's built-in table has no converter for `string`. -/
theorem lookupM_default_string :
    lookupTable MapperPkg.defaultTypeConvertMap ("string") = none := rfl

/-- The `mapper` package's built-in table has no converter for `int`. -/
theorem lookupM_default_int :
    lookupTable MapperPkg.defaultTypeConvertMap ("int") = none := rfl

/-- C8: through the tag-aware `mapper` package entry point, a target field
tagged `fromField:Name` receives the value of source field `Name` although its
own name is `FirstName`, and a target field tagged `fromMethod:GetFullName`
receives the first result value of invoking the zero-argument method
`GetFullName` on the source record (any further result values are ignored) —
for every source field value, every method function and every tail of extra
results. -/
theorem mapper_C8 (i : Int) (nm fam full : String) (gfn : Value → List Value)
    (rets : List Value)
    (hg : gfn (.vstruct ("Source")
        [(("ID"), .vint i), (("Name"), .vstr nm), (("FamilyName"), .vstr fam)])
      = .vstr full :: rets) :
    MapperPkg.Map envC8 [(("GetFullName"), gfn)]
      MapperPkg.defaultTypeConvertMap 3
      (some (.vstruct ("Source")
        [(("ID"), .vint i), (("Name"), .vstr nm), (("FamilyName"), .vstr fam)]))
      (some (.vptr (.tstruct ("Target"))
        (some (MapperPkg.zeroValueMD envC8 (.tstruct ("Target"))))))
    = (.ok (some (.vptr (.tstruct ("Target"))
        (some (.vstruct ("Target")
          [(("ID"), .vint i), (("FirstName"), .vstr nm),
           (("FullName"), .vstr full)])))),
       MapperPkg.defaultTypeConvertMap) := by
  have hm : MapperPkg.mapValuesM envC8 [(("GetFullName"), gfn)]
      (mergeTable (mergeTable [] MapperPkg.defaultTypeConvertMap)
        MapperPkg.defaultTypeConvertMap) 3
      (.vstruct ("Source")
        [(("ID"), .vint i), (("Name"), .vstr nm), (("FamilyName"), .vstr fam)])
      (.tstruct ("Target"))
      (MapperPkg.zeroValueMD envC8 (.tstruct ("Target")))
      = .ok (some (.vstruct ("Target")
          [(("ID"), .vint i), (("FirstName"), .vstr nm),
           (("FullName"), .vstr full)]))
        (.vstruct ("Target")
          [(("ID"), .vint i), (("FirstName"), .vstr nm),
           (("FullName"), .vstr full)]) := by
    rw [convC8, zeroM_envC8]
    simp [MapperPkg.mapValuesM, MapperPkg.mapToStruct, MapperPkg.mapStructFields,
      MapperPkg.mapToString, MapperPkg.getSourceFieldValue,
      MapperPkg.applySettings, MapperPkg.fieldByNameM, MapperPkg.lookupMethod,
      mfieldsOf_envC8, lookupField, setField, valueTy, sprintfV, assignField,
      indirect, tyName, lookupM_default_string, lookupM_default_int, hg]
  unfold MapperPkg.Map
  rw [MapWithConverters_eval, hm]

/-- C8 witness: `mapper_C8` applied at the README example — source
`{ID: 120, Name: "John", FamilyName: "Doe"}` with a `GetFullName` method
returning "John Doe". -/
theorem mapper_C8_witness :
    MapperPkg.Map envC8 [(("GetFullName"), fun _ => [.vstr ("John Doe")])]
      MapperPkg.defaultTypeConvertMap 3
      (some (.vstruct ("Source")
        [(("ID"), .vint 120), (("Name"), .vstr ("John")),
         (("FamilyName"), .vstr ("Doe"))]))
      (some (.vptr (.tstruct ("Target"))
        (some (MapperPkg.zeroValueMD envC8 (.tstruct ("Target"))))))
    = (.ok (some (.vptr (.tstruct ("Target"))
        (some (.vstruct ("Target")
          [(("ID"), .vint 120), (("FirstName"), .vstr ("John")),
           (("FullName"), .vstr ("John Doe"))])))),
       MapperPkg.defaultTypeConvertMap) :=
  mapper_C8 120 ("John") ("Doe") ("John Doe")
    (fun _ => [.vstr ("John Doe")]) [] rfl

/-! ## Claim C9 -/

/-- The self-referential record types of the repository's deep-nesting test:
`Person` points to `Person`, `PersonData` points to `PersonData`. -/
def envC9 : TyEnv :=
  [(("Person"),
      [(("ID"), .tint), (("Name"), .tstring),
       (("Child"), .tptr (.tstruct ("Person")))]),
   (("PersonData"),
      [(("ID"), .tint), (("Name"), .tstring),
       (("Child"), .tptr (.tstruct ("PersonData")))])]

/-- A `Person` chain of arbitrary finite depth: the head record followed by the
remaining links; the last link's `Child` pointer is nil. -/
def chainPerson : (Int × String) → List (Int × String) → Value
| p, [] =>
    .vstruct ("Person")
      [(("ID"), .vint p.1), (("Name"), .vstr p.2),
       (("Child"), .vptr (.tstruct ("Person")) none)]
| p, q :: qs =>
    .vstruct ("Person")
      [(("ID"), .vint p.1), (("Name"), .vstr p.2),
       (("Child"), .vptr (.tstruct ("Person")) (some (chainPerson q qs)))]

/-- The expected mapped image: the same chain as `PersonData` records. -/
def chainPersonData : (Int × String) → List (Int × String) → Value
| p, [] =>
    .vstruct ("PersonData")
      [(("ID"), .vint p.1), (("Name"), .vstr p.2),
       (("Child"), .vptr (.tstruct ("PersonData")) none)]
| p, q :: qs =>
    .vstruct ("PersonData")
      [(("ID"), .vint p.1), (("Name"), .vstr p.2),
       (("Child"), .vptr (.tstruct ("PersonData")) (some (chainPersonData q qs)))]

/-- Every chain image is a `PersonData` record. -/
theorem chainPersonData_ty (p : Int × String) (rest : List (Int × String)) :
    valueTy (chainPersonData p rest) = .tstruct ("PersonData") := by
  cases rest <;> simp [chainPersonData, valueTy]

/-- Declared fields of `PersonData`. -/
theorem fieldsOf_envC9pd :
    fieldsOf envC9 ("PersonData")
    = [(("ID"), .tint), (("Name"), .tstring),
       (("Child"), .tptr (.tstruct ("PersonData")))] := rfl

/-- The zero `PersonData` value. -/
theorem zero_envC9pd :
    zeroValueD envC9 (.tstruct ("PersonData"))
    = .vstruct ("PersonData")
        [(("ID"), .vint 0), (("Name"), .vstr ("")),
         (("Child"), .vptr (.tstruct ("PersonData")) none)] := rfl

/-- The built-in table has no converter for `PersonData`. -/
theorem lookup_default_pd :
    lookupTable defaultTypeTransformFnMap ("PersonData") = none := rfl

/-- The built-in table has no converter for `*PersonData`. -/
theorem lookup_default_star_pd :
    lookupTable defaultTypeTransformFnMap ("*PersonData") = none := rfl

/-- One level of the chain mapping: a `Person` record whose `Child` pointer
holds `c` maps to the `PersonData` record with the same scalars and a freshly
allocated child cell `r`, given that `c` itself maps to `r`. -/
theorem mapValues_person_step (i : Int) (nm : String) (c r : Value)
    (hc : mapValues envC9 defaultTypeTransformFnMap defaultTypeTransformFnMap c
        (.tstruct ("PersonData"))
        (.vstruct ("PersonData")
          [(("ID"), .vint 0), (("Name"), .vstr ("")),
           (("Child"), .vptr (.tstruct ("PersonData")) none)])
      = .ok (some r) r)
    (hr : valueTy r = .tstruct ("PersonData")) :
    mapValues envC9 defaultTypeTransformFnMap defaultTypeTransformFnMap
      (.vstruct ("Person")
        [(("ID"), .vint i), (("Name"), .vstr nm),
         (("Child"), .vptr (.tstruct ("Person")) (some c))])
      (.tstruct ("PersonData"))
      (.vstruct ("PersonData")
        [(("ID"), .vint 0), (("Name"), .vstr ("")),
         (("Child"), .vptr (.tstruct ("PersonData")) none)])
    = .ok (some (.vstruct ("PersonData")
        [(("ID"), .vint i), (("Name"), .vstr nm),
         (("Child"), .vptr (.tstruct ("PersonData")) (some r))]))
      (.vstruct ("PersonData")
        [(("ID"), .vint i), (("Name"), .vstr nm),
         (("Child"), .vptr (.tstruct ("PersonData")) (some r))]) := by
  cases r <;> simp [valueTy] at hr
  subst hr
  simp [mapValues, mapFields, fieldsOf_envC9pd, zero_envC9pd,
    lookup_default_int, lookup_default_string, lookup_default_pd,
    lookup_default_star_pd, lookupField, setField, valueTy, sprintfV,
    assignField, isZeroV, indirect, tyName, hc]

/-- Mapping a `Person` chain of any finite depth terminates and produces the
depth-correct `PersonData` chain: the pointer case recurses only while the
source pointer is non-nil, stopping at the nil link. -/
theorem mapValues_chain (rest : List (Int × String)) (p : Int × String) :
    mapValues envC9 defaultTypeTransformFnMap defaultTypeTransformFnMap
      (chainPerson p rest) (.tstruct ("PersonData"))
      (zeroValueD envC9 (.tstruct ("PersonData")))
    = .ok (some (chainPersonData p rest)) (chainPersonData p rest) := by
  induction rest generalizing p with
  | nil =>
      simp [chainPerson, chainPersonData, mapValues, mapFields,
        fieldsOf_envC9pd, zero_envC9pd, lookup_default_int,
        lookup_default_string, lookup_default_pd, lookup_default_star_pd,
        lookupField, setField, valueTy, sprintfV, assignField, isZeroV,
        indirect, tyName]
  | cons q qs ih =>
      have step := mapValues_person_step p.1 p.2 (chainPerson q qs)
        (chainPersonData q qs)
        (by simpa [zero_envC9pd] using ih q) (chainPersonData_ty q qs)
      simpa [chainPerson, chainPersonData, zero_envC9pd] using step

/-- C9: for every finite source chain — values of the cyclic self-referential
record type `Person`, of arbitrary depth — the recursive mapping terminates and
returns the depth-correct `PersonData` chain, because the pointer case recurses
only while the source pointer is non-empty; no type-level cycle detection is
involved (none exists in the definitions). -/
theorem mapper_C9 (p : Int × String) (rest : List (Int × String)) :
    Map envC9 defaultTypeTransformFnMap
      (some (chainPerson p rest))
      (some (.vptr (.tstruct ("PersonData"))
        (some (zeroValueD envC9 (.tstruct ("PersonData"))))))
    = (.ok (some (.vptr (.tstruct ("PersonData"))
        (some (chainPersonData p rest)))),
       defaultTypeTransformFnMap) := by
  have h := mapValues_chain rest p
  simp [Map, MapWithBuilders, verifyParameters, merge_default_self, h]

/-! ## Claim C10 -/

/-- A target record with a single pointer-shaped field. -/
def envC10 : TyEnv := [(("Target"), [(("Deleted"), .tptr .ttime)])]

/-- Declared fields of the C10 target type. -/
theorem fieldsOf_envC10 :
    fieldsOf envC10 ("Target") = [(("Deleted"), .tptr .ttime)] := rfl

/-- C10: when the recursively mapped value for a field is nil (here: the source
optional `Deleted` is empty), the struct loop skips the assignment entirely, so
whatever value the pre-populated target field already held — any pointer
contents `pre`, of any element type `e2` — is preserved, not reset. -/
theorem mapper_C10 (e e2 : Ty) (pre : Option Value) :
    Map envC10 defaultTypeTransformFnMap
      (some (.vstruct ("Source") [(("Deleted"), .vptr e none)]))
      (some (.vptr (.tstruct ("Target"))
        (some (.vstruct ("Target") [(("Deleted"), .vptr e2 pre)]))))
    = (.ok (some (.vptr (.tstruct ("Target"))
        (some (.vstruct ("Target") [(("Deleted"), .vptr e2 pre)])))),
       defaultTypeTransformFnMap) := by
  simp [Map, MapWithBuilders, verifyParameters, merge_default_self, mapValues,
    mapFields, fieldsOf_envC10, lookup_default_ptr_time, lookupField, setField,
    valueTy, sprintfV, assignField, isZeroV, indirect, tyName]

end ObjectMapper
